import Mathlib

/-!
Verification of the nestjs-todo-backend against its specification.

The embedding translates the repository's service and repository layers into
pure Lean functions:

* Persistent rows (Prisma models `User` and `Todo` from `prisma/schema.prisma`)
  become structures; DB-managed timestamps are modelled as naturals where the
  code observes them (`Todo.createdAt` for ordering) and omitted where no
  claim observes them.  `DateTime` values that the code only stores and
  returns (`Todo.dueDate`) are modelled by the strings that produced them.
* The database is a list of rows; Prisma `findUnique`/`findFirst` become
  `List.find?`, `update where id` becomes a `List.map` that rewrites the
  matching row, `create` appends a row with the next id.
* `bcrypt` is an external collaborator: `bcrypt.hash` is modelled as a
  deterministic tagged encoding whose outputs always carry the bcrypt format
  prefix (hence are never the empty string), and `bcrypt.compare` succeeds
  exactly on the stored hash of the supplied plaintext.
* `jwtService.sign` is modelled as returning the signed payload itself.
* TypeScript `x || null` truthiness coercion (empty string counts as absent)
  is modelled explicitly by `presentOrNull` / `strOrNull`.
-/

namespace TodoBackend

/-- Prisma model `User` (prisma/schema.prisma): id, unique email, password
hash (empty-string sentinel for federated accounts), optional name, provider
tag, optional picture.  The DB-managed `createdAt`/`updatedAt` metadata
columns are not observed by any verified operation and are omitted. -/
structure User where
  id : Nat
  email : String
  password : String
  name : Option String
  authProvider : String
  profilePicture : Option String
deriving Repr, DecidableEq

/-- Prisma model `Todo`: id, title, optional description, completion flag,
optional due date (stored as the submitted date string), creation time
(observed by `findAll` ordering), owning user id. -/
structure Todo where
  id : Nat
  title : String
  description : Option String
  completed : Bool
  dueDate : Option String
  createdAt : Nat
  userId : Nat
deriving Repr, DecidableEq

/-- TypeScript `s || null` on a string: the empty string is falsy and
coerces to null. -/
def presentOrNull (s : String) : Option String :=
  if s = "" then none else some s

/-- TypeScript `x || null` on a nullable/optional string. -/
def strOrNull : Option String → Option String
  | some s => presentOrNull s
  | none => none

/-- Model of `bcrypt.hash(plain, 10)`: a deterministic encoding carrying the
bcrypt format tag, so no hash output is ever the empty string. -/
def bcryptHash (plain : String) : String :=
  "$2b$10$" ++ plain

/-- Model of `bcrypt.compare(plain, stored)`: succeeds exactly when `stored`
is the hash of `plain`.  In particular no plain text ever compares equal to a
stored value that is not a well-formed hash (such as the `""` sentinel). -/
def bcryptCompare (plain stored : String) : Bool :=
  stored == bcryptHash plain

/-- The JWT claims produced by `AuthService.generateToken`; `jwtService.sign`
is modelled as returning the payload it signs. -/
structure JwtPayload where
  sub : Nat
  email : String
  name : Option String
  picture : Option String
deriving Repr, DecidableEq

/-- `AuthService.generateToken(userId, email, name, picture)` builds the
payload with `name || null` and `picture || null`. -/
def generateToken (userId : Nat) (email : String) (name picture : Option String) :
    JwtPayload :=
  { sub := userId, email := email, name := strOrNull name, picture := strOrNull picture }

/-- The `AuthenticatedUser` result shape of `AuthService`. -/
structure AuthenticatedUser where
  id : Nat
  email : String
  name : Option String
  token : JwtPayload
  picture : Option String
deriving Repr, DecidableEq

/-- The HTTP-level failures thrown by the auth layer. -/
inductive AuthError
  | unauthorized (msg : String)
  | conflict (msg : String)
deriving Repr, DecidableEq

def invalidCredentialsMsg : String := "Invalid credentials"

def googleAuthMsg : String :=
  "This account uses Google authentication. Please sign in with Google."

def emailExistsMsg : String := "Email already exists"

def invalidTokenMsg : String := "Invalid token"

/-- `UserRepository.findByEmail` / `prisma.user.findUnique(where email)`. -/
def findByEmail (users : List User) (email : String) : Option User :=
  users.find? (fun u => u.email == email)

/-- The user table together with the autoincrement counter. -/
structure UserStore where
  users : List User
  nextId : Nat
deriving Repr, DecidableEq

/-- Result shape built by `register` and `login`: stored fields are returned
raw (no `|| null` coercion on `name` / `picture` in those two methods). -/
def localAuthResult (u : User) : AuthenticatedUser :=
  { id := u.id, email := u.email, name := u.name,
    token := generateToken u.id u.email u.name u.profilePicture,
    picture := u.profilePicture }

/-- Result shape built by the federated flows: `name || null` and
`picture || null` coercions are applied. -/
def federatedAuthResult (u : User) : AuthenticatedUser :=
  { id := u.id, email := u.email, name := strOrNull u.name,
    token := generateToken u.id u.email u.name u.profilePicture,
    picture := strOrNull u.profilePicture }

/-- `AuthService.register`: conflict when the email already exists, otherwise
create a `local` user with the hashed password and issue a token.  The
resulting store is returned alongside the outcome so that "no row created"
is expressible. -/
def register (store : UserStore) (email name password : String) :
    UserStore × Except AuthError AuthenticatedUser :=
  match findByEmail store.users email with
  | some _ => (store, .error (.conflict emailExistsMsg))
  | none =>
      let user : User :=
        { id := store.nextId, email := email, password := bcryptHash password,
          name := some name, authProvider := "local", profilePicture := none }
      ({ users := store.users ++ [user], nextId := store.nextId + 1 },
       .ok (localAuthResult user))

/-- `AuthService.login`: unknown email and failed hash comparison both yield
the generic message; a stored provider equal to `google` (and only `google`)
short-circuits with the provider-specific message before the comparison. -/
def login (users : List User) (email password : String) :
    Except AuthError AuthenticatedUser :=
  match findByEmail users email with
  | none => .error (.unauthorized invalidCredentialsMsg)
  | some user =>
      if user.authProvider = "google" then
        .error (.unauthorized googleAuthMsg)
      else if bcryptCompare password user.password then
        .ok (localAuthResult user)
      else
        .error (.unauthorized invalidCredentialsMsg)

/-- The normalized Google profile handed to `validateOrCreateGoogleUser`
(`GoogleUser` in auth.service.ts; `picture` arrives as a string, empty when
the provider sent none). -/
structure GoogleUser where
  email : String
  firstName : String
  lastName : String
  picture : String
deriving Repr, DecidableEq

/-- The normalized Amazon profile handed to `validateOrCreateAmazonUser`
(`AmazonUser` in auth.service.ts; `picture` is optional). -/
structure AmazonUser where
  email : String
  name : String
  picture : Option String
deriving Repr, DecidableEq

/-- `UserRepository.createGoogleUser(email, name, picture)`: inserts a user
with the empty sentinel password, `authProvider = "google"`, and the given
(already null-coerced) picture; returns the created row. -/
def createGoogleUser (store : UserStore) (email name : String)
    (picture : Option String) : UserStore × User :=
  let user : User :=
    { id := store.nextId, email := email, password := "", name := some name,
      authProvider := "google", profilePicture := picture }
  ({ users := store.users ++ [user], nextId := store.nextId + 1 }, user)

/-- Modelled from the spec: the concrete `UserRepository.createAmazonUser`
implementation is not present under src/ (only its interface declaration and
its caller are); per spec section 4.2 the not-found branch creates a user
with `authProvider` equal to the provider, the empty sentinel password, the
profile's display name and picture. -/
def createAmazonUser (store : UserStore) (email name : String)
    (picture : Option String) : UserStore × User :=
  let user : User :=
    { id := store.nextId, email := email, password := "", name := some name,
      authProvider := "amazon", profilePicture := picture }
  ({ users := store.users ++ [user], nextId := store.nextId + 1 }, user)

/-- `UserRepository.updateUser(id, data)` as invoked by both federated flows
with `data = { authProvider, profilePicture }`: Prisma rewrites exactly the
supplied columns of the row with the given id. -/
def updateUserProviderPicture (users : List User) (id : Nat) (provider : String)
    (picture : Option String) : List User :=
  users.map (fun u =>
    if u.id = id then { u with authProvider := provider, profilePicture := picture }
    else u)

/-- `AuthService.validateOrCreateGoogleUser`: look up by email; create on
not-found (display name is `firstName lastName` trimmed, picture is
`picture || null`); on a different stored provider rewrite provider tag and
picture; on the same provider mutate nothing.  The token and response are
built from the persisted row of the taken branch. -/
def validateOrCreateGoogleUser (store : UserStore) (g : GoogleUser) :
    UserStore × AuthenticatedUser :=
  match findByEmail store.users g.email with
  | none =>
      let fullName := (g.firstName ++ " " ++ g.lastName).trim
      let created := createGoogleUser store g.email fullName (presentOrNull g.picture)
      (created.1, federatedAuthResult created.2)
  | some user =>
      if user.authProvider = "google" then
        (store, federatedAuthResult user)
      else
        let updated : User :=
          { user with authProvider := "google",
                      profilePicture := presentOrNull g.picture }
        ({ store with
            users := updateUserProviderPicture store.users user.id "google"
              (presentOrNull g.picture) },
         federatedAuthResult updated)

/-- `AuthService.validateOrCreateAmazonUser`: same decision table as the
Google flow with provider tag `amazon` and `picture || null` on the optional
profile picture. -/
def validateOrCreateAmazonUser (store : UserStore) (a : AmazonUser) :
    UserStore × AuthenticatedUser :=
  match findByEmail store.users a.email with
  | none =>
      let created := createAmazonUser store a.email a.name (strOrNull a.picture)
      (created.1, federatedAuthResult created.2)
  | some user =>
      if user.authProvider = "amazon" then
        (store, federatedAuthResult user)
      else
        let updated : User :=
          { user with authProvider := "amazon",
                      profilePicture := strOrNull a.picture }
        ({ store with
            users := updateUserProviderPicture store.users user.id "amazon"
              (strOrNull a.picture) },
         federatedAuthResult updated)

/-- The request-scoped identity attached by the JWT guard
(`AuthUser` in user.interface.ts). -/
structure AuthUser where
  id : Nat
  email : String
  name : Option String
deriving Repr, DecidableEq

/-- `JwtStrategy.validate(payload)`: after signature and expiry have been
checked by the passport layer, resolve the subject id against the user
table; a missing user is rejected with Unauthorized even though the token
itself was valid. -/
def jwtValidate (users : List User) (payload : JwtPayload) :
    Except AuthError AuthUser :=
  match users.find? (fun u => u.id == payload.sub) with
  | none => .error (.unauthorized invalidTokenMsg)
  | some u => .ok { id := u.id, email := u.email, name := strOrNull u.name }

/-- `UpdateTodoDto` (todo.dto.ts): every field optional. -/
structure UpdateTodoDto where
  title : Option String
  description : Option String
  completed : Option Bool
  dueDate : Option String
deriving Repr, DecidableEq

/-- The 404 thrown by `TodosService` (message `Todo with ID <id> not found`,
carrying only the requested id in both the missing and the foreign-owner
case). -/
inductive TodoError
  | notFound (id : Nat)
deriving Repr, DecidableEq

/-- `TodoRepository.findOne(id, userId)` /
`prisma.todo.findFirst(where id and userId)`. -/
def todoRepoFindOne (todos : List Todo) (id userId : Nat) : Option Todo :=
  todos.find? (fun t => t.id == id && t.userId == userId)

/-- `TodoRepository.exists(id, userId)`: same `findFirst` filter, collapsed
to a boolean. -/
def todoRepoExists (todos : List Todo) (id userId : Nat) : Bool :=
  (todoRepoFindOne todos id userId).isSome

/-- Ordering used by `findAll`: `orderBy createdAt desc`. -/
def laterFirst (a b : Todo) : Prop :=
  b.createdAt ≤ a.createdAt

instance : DecidableRel laterFirst :=
  fun a b => Nat.decLe b.createdAt a.createdAt

instance : IsTotal Todo laterFirst :=
  ⟨fun a b => (Nat.le_total b.createdAt a.createdAt).imp id id⟩

instance : IsTrans Todo laterFirst :=
  ⟨fun _ _ _ hab hbc => Nat.le_trans hbc hab⟩

/-- `TodoRepository.findAll(userId)`: all rows of that owner, newest first,
no pagination. -/
def todoRepoFindAll (todos : List Todo) (userId : Nat) : List Todo :=
  List.insertionSort laterFirst (todos.filter (fun t => t.userId == userId))

/-- The single-row update performed by `TodoRepository.update`: spread the
dto over the row, except that `dueDate` is converted from the submitted
string when truthy and passed as `undefined` (left untouched) when the dto
field is absent or empty. -/
def applyTodoUpdate (t : Todo) (dto : UpdateTodoDto) : Todo :=
  { t with
    title := dto.title.getD t.title,
    description := match dto.description with
      | some d => some d
      | none => t.description,
    completed := dto.completed.getD t.completed,
    dueDate := match dto.dueDate with
      | some s => if s = "" then t.dueDate else some s
      | none => t.dueDate }

/-- `TodoRepository.update(id, userId, dto)` issues
`prisma.todo.update(where id)`: the row with that id is rewritten. -/
def todoRepoUpdate (todos : List Todo) (id : Nat) (dto : UpdateTodoDto) :
    List Todo :=
  todos.map (fun t => if t.id = id then applyTodoUpdate t dto else t)

/-- `TodoRepository.remove(id, userId)` issues
`prisma.todo.delete(where id)`. -/
def todoRepoRemove (todos : List Todo) (id : Nat) : List Todo :=
  todos.filter (fun t => t.id != id)

/-- `TodosService.findOne`: 404 when the owner-scoped lookup is empty. -/
def serviceFindOne (todos : List Todo) (id userId : Nat) :
    Except TodoError Todo :=
  match todoRepoFindOne todos id userId with
  | none => .error (.notFound id)
  | some t => .ok t

/-- `TodosService.update`: existence-and-ownership check, then the repo
update. -/
def serviceUpdate (todos : List Todo) (id userId : Nat) (dto : UpdateTodoDto) :
    Except TodoError (List Todo) :=
  if todoRepoExists todos id userId then .ok (todoRepoUpdate todos id dto)
  else .error (.notFound id)

/-- `TodosService.remove`: existence-and-ownership check, then the repo
delete. -/
def serviceRemove (todos : List Todo) (id userId : Nat) :
    Except TodoError (List Todo) :=
  if todoRepoExists todos id userId then .ok (todoRepoRemove todos id)
  else .error (.notFound id)

/-! Helper lemmas and sample data shared by the verification theorems. -/

/-- A bcrypt hash always carries the format tag, so it is never the empty
string; hence `bcrypt.compare` can never succeed against the sentinel. -/
theorem bcryptHash_ne_empty (pw : String) : bcryptHash pw ≠ "" := by
  intro h
  have hlen := congrArg String.length h
  simp [bcryptHash, String.length_append] at hlen
  exact absurd hlen.1 (by decide)

theorem bcryptCompare_sentinel (pw : String) : bcryptCompare pw "" = false := by
  have h := bcryptHash_ne_empty pw
  simp [bcryptCompare]
  exact fun heq => h heq.symm

/-- A `local`-provider user holding a real bcrypt hash whose provider tag was
later switched to `amazon` by a federated login (spec section 8 scenario). -/
def amazonLocalUser : User :=
  { id := 1, email := "a@x.com", password := bcryptHash "pw123456",
    name := some "Alice", authProvider := "amazon", profilePicture := none }

def googleUserSample : User :=
  { id := 1, email := "g@x.com", password := "", name := some "Gee",
    authProvider := "google", profilePicture := some "gp.png" }

def amazonUserSample : User :=
  { id := 2, email := "a2@x.com", password := "", name := some "Ama",
    authProvider := "amazon", profilePicture := none }

def localUserSample : User :=
  { id := 1, email := "g@x.com", password := bcryptHash "pw123456",
    name := some "Gee", authProvider := "local", profilePicture := none }

def localUserSample2 : User :=
  { id := 2, email := "a2@x.com", password := bcryptHash "pw", name := some "A",
    authProvider := "local", profilePicture := some "old.png" }

def gProfileSample : GoogleUser :=
  { email := "g@x.com", firstName := "Gee", lastName := "User", picture := "" }

def aProfileSample : AmazonUser :=
  { email := "a2@x.com", name := "Ama Zon", picture := none }

/-- C1 (counterexample): a user whose stored `authProvider` is `amazon` (a
non-local provider) does not receive the provider-specific Unauthorized
rejection on local login: the provider gate in `login` tests only for
`google`, so the attempt proceeds to the hash comparison and, with the
still-stored local hash, succeeds outright. -/
theorem c1_counterexample_amazon_login_succeeds :
    amazonLocalUser.authProvider ≠ "local" ∧
    findByEmail [amazonLocalUser] "a@x.com" = some amazonLocalUser ∧
    login [amazonLocalUser] "a@x.com" "pw123456" =
      .ok (localAuthResult amazonLocalUser) := by
  refine ⟨by decide, by decide, by rfl⟩

/-- C1 (amended): local login against an existing account short-circuits
with the provider-specific message exactly when the stored provider is
`google`; for every other provider tag (including `amazon`) it falls through
to the hash comparison, failing with the generic invalid-credentials message
when the comparison fails and succeeding when it matches. -/
theorem c1_login_provider_gate (users : List User) (email pw : String) (u : User)
    (hfind : findByEmail users email = some u) :
    (u.authProvider = "google" →
        login users email pw = .error (.unauthorized googleAuthMsg))
  ∧ (u.authProvider ≠ "google" → bcryptCompare pw u.password = false →
        login users email pw = .error (.unauthorized invalidCredentialsMsg))
  ∧ (u.authProvider ≠ "google" → bcryptCompare pw u.password = true →
        login users email pw = .ok (localAuthResult u)) := by
  refine ⟨fun hg => ?_, fun hg hc => ?_, fun hg hc => ?_⟩
  · simp [login, hfind, hg]
  · simp [login, hfind, hg, hc]
  · simp [login, hfind, hg, hc]

theorem c1_login_provider_gate_witness :
    login [googleUserSample] "g@x.com" "anything" =
      .error (.unauthorized googleAuthMsg) :=
  (c1_login_provider_gate [googleUserSample] "g@x.com" "anything"
    googleUserSample (by decide)).1 (by decide)

/-- C6: registering an email that already belongs to a stored user yields
Conflict, for every supplied name and password, and returns the store
unchanged (no row is created). -/
theorem c6_register_conflict (store : UserStore) (email name password : String)
    (h : ∃ u ∈ store.users, u.email = email) :
    register store email name password =
      (store, .error (.conflict emailExistsMsg)) := by
  obtain ⟨u, hu, he⟩ := h
  have hs : (store.users.find? (fun v => v.email == email)).isSome := by
    rw [List.find?_isSome]
    exact ⟨u, hu, by simp [he]⟩
  obtain ⟨v, hv⟩ := Option.isSome_iff_exists.mp hs
  simp [register, findByEmail, hv]

theorem c6_register_conflict_witness :
    register { users := [googleUserSample], nextId := 2 } "g@x.com" "Bob" "hunter42" =
      ({ users := [googleUserSample], nextId := 2 },
       .error (.conflict emailExistsMsg)) :=
  c6_register_conflict { users := [googleUserSample], nextId := 2 }
    "g@x.com" "Bob" "hunter42" ⟨googleUserSample, by decide, by decide⟩

/-- C8: against an account whose stored password is the empty-string
sentinel, the bcrypt comparison rejects every supplied plaintext, so local
login always fails with Unauthorized. -/
theorem c8_sentinel_login_always_fails (users : List User) (email pw : String)
    (u : User) (hfind : findByEmail users email = some u)
    (hpw : u.password = "") :
    bcryptCompare pw u.password = false ∧
    ∃ msg, login users email pw = .error (.unauthorized msg) := by
  have hc : bcryptCompare pw u.password = false := by
    rw [hpw]; exact bcryptCompare_sentinel pw
  refine ⟨hc, ?_⟩
  by_cases hg : u.authProvider = "google"
  · exact ⟨googleAuthMsg, by simp [login, hfind, hg]⟩
  · exact ⟨invalidCredentialsMsg, by simp [login, hfind, hg, hc]⟩

theorem c8_sentinel_login_always_fails_witness :
    bcryptCompare "pw123456" amazonUserSample.password = false ∧
    ∃ msg, login [amazonUserSample] "a2@x.com" "pw123456" =
      .error (.unauthorized msg) :=
  c8_sentinel_login_always_fails [amazonUserSample] "a2@x.com" "pw123456"
    amazonUserSample (by decide) (by decide)

/-- C2: `findOne`, `update` and `remove` respond NotFound exactly when no
todo with the requested id owned by the caller exists; an id owned by a
different user therefore produces the very same NotFound error (there is no
distinct forbidden error in `TodoError`), and a successful `findOne` only
ever returns a todo owned by the caller. -/
theorem c2_todo_ownership_gate (todos : List Todo) (id uid : Nat)
    (dto : UpdateTodoDto) :
    ((¬ ∃ t ∈ todos, t.id = id ∧ t.userId = uid) ↔
        serviceFindOne todos id uid = .error (.notFound id))
  ∧ ((¬ ∃ t ∈ todos, t.id = id ∧ t.userId = uid) ↔
        serviceUpdate todos id uid dto = .error (.notFound id))
  ∧ ((¬ ∃ t ∈ todos, t.id = id ∧ t.userId = uid) ↔
        serviceRemove todos id uid = .error (.notFound id))
  ∧ (∀ t, serviceFindOne todos id uid = .ok t → t.id = id ∧ t.userId = uid) := by
  cases hf : todoRepoFindOne todos id uid with
  | none =>
      have hno : ¬ ∃ t ∈ todos, t.id = id ∧ t.userId = uid := by
        rintro ⟨t, ht, h1, h2⟩
        have := List.find?_eq_none.mp hf t ht
        simp [h1, h2] at this
      refine ⟨iff_of_true hno (by simp [serviceFindOne, hf]),
        iff_of_true hno (by simp [serviceUpdate, todoRepoExists, hf]),
        iff_of_true hno (by simp [serviceRemove, todoRepoExists, hf]), ?_⟩
      intro t ht
      simp [serviceFindOne, hf] at ht
  | some t =>
      have hmem : t ∈ todos := List.mem_of_find?_eq_some hf
      have hprops : t.id = id ∧ t.userId = uid := by
        have hp := List.find?_some hf
        simpa [Bool.and_eq_true] using hp
      have hyes : ∃ t' ∈ todos, t'.id = id ∧ t'.userId = uid :=
        ⟨t, hmem, hprops⟩
      refine ⟨iff_of_false (fun hno => hno hyes) (by simp [serviceFindOne, hf]),
        iff_of_false (fun hno => hno hyes)
          (by simp [serviceUpdate, todoRepoExists, hf]),
        iff_of_false (fun hno => hno hyes)
          (by simp [serviceRemove, todoRepoExists, hf]), ?_⟩
      intro t' ht'
      simp [serviceFindOne, hf] at ht'
      exact ht' ▸ hprops

def todoSample : Todo :=
  { id := 10, title := "write spec", description := none, completed := false,
    dueDate := none, createdAt := 5, userId := 1 }

def emptyUpdateDto : UpdateTodoDto :=
  { title := none, description := none, completed := none, dueDate := none }

theorem c2_todo_ownership_gate_witness :
    ((¬ ∃ t ∈ [todoSample], t.id = 10 ∧ t.userId = 2) ↔
        serviceFindOne [todoSample] 10 2 = .error (.notFound 10))
  ∧ ((¬ ∃ t ∈ [todoSample], t.id = 10 ∧ t.userId = 2) ↔
        serviceUpdate [todoSample] 10 2 emptyUpdateDto = .error (.notFound 10))
  ∧ ((¬ ∃ t ∈ [todoSample], t.id = 10 ∧ t.userId = 2) ↔
        serviceRemove [todoSample] 10 2 = .error (.notFound 10))
  ∧ (∀ t, serviceFindOne [todoSample] 10 2 = .ok t →
        t.id = 10 ∧ t.userId = 2) :=
  c2_todo_ownership_gate [todoSample] 10 2 emptyUpdateDto

/-- C7: token validation rejects with Unauthorized exactly when the token's
subject id resolves to no stored user, and any accepted token yields an
identity whose id is a stored user's id equal to the subject. -/
theorem c7_jwt_subject_must_exist (users : List User) (p : JwtPayload) :
    (jwtValidate users p = .error (.unauthorized invalidTokenMsg) ↔
        ∀ u ∈ users, u.id ≠ p.sub)
  ∧ (∀ a, jwtValidate users p = .ok a →
        ∃ u ∈ users, u.id = p.sub ∧ a.id = u.id) := by
  cases hf : users.find? (fun u => u.id == p.sub) with
  | none =>
      have hno : ∀ u ∈ users, u.id ≠ p.sub := by
        intro u hu
        have := List.find?_eq_none.mp hf u hu
        simpa using this
      refine ⟨iff_of_true (by simp [jwtValidate, hf]) hno, ?_⟩
      intro a ha
      simp [jwtValidate, hf] at ha
  | some u =>
      have hmem : u ∈ users := List.mem_of_find?_eq_some hf
      have hid : u.id = p.sub := by simpa using List.find?_some hf
      refine ⟨iff_of_false (by simp [jwtValidate, hf])
        (fun hall => hall u hmem hid), ?_⟩
      intro a ha
      simp [jwtValidate, hf] at ha
      exact ⟨u, hmem, hid, by rw [← ha]⟩

theorem c7_jwt_subject_must_exist_witness :
    (jwtValidate [] { sub := 1, email := "g@x.com", name := none, picture := none } =
        .error (.unauthorized invalidTokenMsg) ↔
      ∀ u ∈ ([] : List User), u.id ≠ 1)
  ∧ (∀ a, jwtValidate [] { sub := 1, email := "g@x.com", name := none, picture := none } =
        .ok a → ∃ u ∈ ([] : List User), u.id = 1 ∧ a.id = u.id) :=
  c7_jwt_subject_must_exist []
    { sub := 1, email := "g@x.com", name := none, picture := none }

/-- C9: `findAll` returns a permutation of exactly the caller's todos (so it
never contains another user's todo and drops nothing — no pagination),
sorted by creation time descending. -/
theorem c9_findAll_owner_scoped_sorted (todos : List Todo) (uid : Nat) :
    (∀ t ∈ todoRepoFindAll todos uid, t.userId = uid)
  ∧ List.Perm (todoRepoFindAll todos uid)
      (todos.filter (fun t => t.userId == uid))
  ∧ List.Sorted laterFirst (todoRepoFindAll todos uid) := by
  have hperm := List.perm_insertionSort laterFirst
    (todos.filter (fun t => t.userId == uid))
  refine ⟨?_, hperm, List.sorted_insertionSort laterFirst _⟩
  intro t ht
  have hmem : t ∈ todos.filter (fun t => t.userId == uid) :=
    hperm.mem_iff.mp ht
  simpa using (List.mem_filter.mp hmem).2

def todoSampleOther : Todo :=
  { id := 11, title := "other user", description := some "not yours",
    completed := true, dueDate := some "2026-01-01", createdAt := 9, userId := 2 }

theorem c9_findAll_owner_scoped_sorted_witness :
    (∀ t ∈ todoRepoFindAll [todoSample, todoSampleOther] 1, t.userId = 1)
  ∧ List.Perm (todoRepoFindAll [todoSample, todoSampleOther] 1)
      ([todoSample, todoSampleOther].filter (fun t => t.userId == 1))
  ∧ List.Sorted laterFirst (todoRepoFindAll [todoSample, todoSampleOther] 1) :=
  c9_findAll_owner_scoped_sorted [todoSample, todoSampleOther] 1

/-- C3: a federated login that finds the email under a different stored
provider rewrites the user table by updating exactly the `authProvider` and
`profilePicture` columns of that user's row (to the incoming provider and
the null-coerced incoming picture), and any row produced by that update
keeps its id, email, password and name.  Each flow's side conditions sit
inside its own implication, so every single-flow instance is derivable. -/
theorem c3_federated_switch_frame (store : UserStore) (g : GoogleUser)
    (a : AmazonUser) (u v : User) :
    (findByEmail store.users g.email = some u → u.authProvider ≠ "google" →
      (validateOrCreateGoogleUser store g).1 =
        { store with users := (updateUserProviderPicture store.users u.id
            "google" (presentOrNull g.picture)) })
  ∧ (findByEmail store.users a.email = some v → v.authProvider ≠ "amazon" →
      (validateOrCreateAmazonUser store a).1 =
        { store with users := (updateUserProviderPicture store.users v.id
            "amazon" (strOrNull a.picture)) })
  ∧ (∀ (users : List User) (id : Nat) (prov : String) (pic : Option String),
      ∀ w ∈ updateUserProviderPicture users id prov pic,
        ∃ w₀ ∈ users, w.id = w₀.id ∧ w.email = w₀.email ∧
          w.password = w₀.password ∧ w.name = w₀.name ∧
          (w₀.id = id → w.authProvider = prov ∧ w.profilePicture = pic)) := by
  refine ⟨fun hg hgp => by simp [validateOrCreateGoogleUser, hg, hgp],
    fun ha hap => by simp [validateOrCreateAmazonUser, ha, hap], ?_⟩
  intro users id prov pic w hw
  simp only [updateUserProviderPicture, List.mem_map] at hw
  obtain ⟨w₀, hw₀, heq⟩ := hw
  subst heq
  refine ⟨w₀, hw₀, ?_⟩
  by_cases hid : w₀.id = id
  · simp [hid]
  · simp [hid]

def storeSwitch : UserStore :=
  { users := [localUserSample, localUserSample2], nextId := 3 }

/-- A store whose only user is on provider `amazon`, switched by a Google
login for that same email. -/
def soloAmazonStore : UserStore :=
  { users := [amazonLocalUser], nextId := 2 }

def gProfileForAX : GoogleUser :=
  { email := "a@x.com", firstName := "Alice", lastName := "", picture := "pic.png" }

theorem c3_federated_switch_frame_witness :
    ((validateOrCreateGoogleUser soloAmazonStore gProfileForAX).1 =
      { soloAmazonStore with users := (updateUserProviderPicture
          soloAmazonStore.users amazonLocalUser.id "google"
          (presentOrNull gProfileForAX.picture)) })
  ∧ ((validateOrCreateAmazonUser storeSwitch aProfileSample).1 =
      { storeSwitch with users := (updateUserProviderPicture storeSwitch.users
          localUserSample2.id "amazon" (strOrNull aProfileSample.picture)) }) :=
  ⟨(c3_federated_switch_frame soloAmazonStore gProfileForAX aProfileSample
      amazonLocalUser localUserSample2).1 (by decide) (by decide),
   (c3_federated_switch_frame storeSwitch gProfileSample aProfileSample
      localUserSample localUserSample2).2.1 (by decide) (by decide)⟩

/-- C4: a federated login that finds the email already on the same provider
returns the store unchanged, and its response (token included) is built by
`federatedAuthResult` from the persisted row alone — no field of the
incoming profile other than the email used for the lookup influences it.
Each flow's side conditions sit inside its own implication, so every
single-flow instance is derivable. -/
theorem c4_federated_same_provider_no_mutation (store : UserStore)
    (g : GoogleUser) (a : AmazonUser) (u v : User) :
    (findByEmail store.users g.email = some u → u.authProvider = "google" →
      validateOrCreateGoogleUser store g = (store, federatedAuthResult u))
  ∧ (findByEmail store.users a.email = some v → v.authProvider = "amazon" →
      validateOrCreateAmazonUser store a = (store, federatedAuthResult v)) := by
  constructor
  · intro hg hgp
    simp [validateOrCreateGoogleUser, hg, hgp]
  · intro ha hap
    simp [validateOrCreateAmazonUser, ha, hap]

def storeSame : UserStore :=
  { users := [googleUserSample, amazonUserSample], nextId := 3 }

/-- A store whose only user is on provider `google`, receiving a repeat
Google login. -/
def soloGoogleStore : UserStore :=
  { users := [googleUserSample], nextId := 2 }

theorem c4_federated_same_provider_no_mutation_witness :
    validateOrCreateGoogleUser soloGoogleStore gProfileSample =
      (soloGoogleStore, federatedAuthResult googleUserSample)
  ∧ validateOrCreateAmazonUser storeSame aProfileSample =
      (storeSame, federatedAuthResult amazonUserSample) :=
  ⟨(c4_federated_same_provider_no_mutation soloGoogleStore gProfileSample
      aProfileSample googleUserSample amazonUserSample).1 (by decide) (by decide),
   (c4_federated_same_provider_no_mutation storeSame gProfileSample
      aProfileSample googleUserSample amazonUserSample).2 (by decide) (by decide)⟩

/-- C5: a federated login for an unseen email appends exactly one new user —
provider tag set to the incoming provider, the empty sentinel password, the
profile's display name, the null-coerced profile picture — and the response
is built from that created row. -/
theorem c5_federated_creates_user (store : UserStore) (g : GoogleUser)
    (a : AmazonUser) (hg : findByEmail store.users g.email = none)
    (ha : findByEmail store.users a.email = none) :
    (validateOrCreateGoogleUser store g =
      ({ users := store.users ++
          [{ id := store.nextId, email := g.email, password := "",
             name := some ((g.firstName ++ " " ++ g.lastName).trim),
             authProvider := "google",
             profilePicture := presentOrNull g.picture }],
         nextId := store.nextId + 1 },
       federatedAuthResult
         { id := store.nextId, email := g.email, password := "",
           name := some ((g.firstName ++ " " ++ g.lastName).trim),
           authProvider := "google",
           profilePicture := presentOrNull g.picture }))
  ∧ (validateOrCreateAmazonUser store a =
      ({ users := store.users ++
          [{ id := store.nextId, email := a.email, password := "",
             name := some a.name, authProvider := "amazon",
             profilePicture := strOrNull a.picture }],
         nextId := store.nextId + 1 },
       federatedAuthResult
         { id := store.nextId, email := a.email, password := "",
           name := some a.name, authProvider := "amazon",
           profilePicture := strOrNull a.picture })) := by
  constructor
  · simp [validateOrCreateGoogleUser, createGoogleUser, hg]
  · simp [validateOrCreateAmazonUser, createAmazonUser, ha]

theorem c5_federated_creates_user_witness :
    (validateOrCreateGoogleUser { users := [], nextId := 1 } gProfileSample =
      ({ users := [] ++
          [{ id := 1, email := gProfileSample.email, password := "",
             name := some ((gProfileSample.firstName ++ " " ++
               gProfileSample.lastName).trim),
             authProvider := "google",
             profilePicture := presentOrNull gProfileSample.picture }],
         nextId := 1 + 1 },
       federatedAuthResult
         { id := 1, email := gProfileSample.email, password := "",
           name := some ((gProfileSample.firstName ++ " " ++
             gProfileSample.lastName).trim),
           authProvider := "google",
           profilePicture := presentOrNull gProfileSample.picture }))
  ∧ (validateOrCreateAmazonUser { users := [], nextId := 1 } aProfileSample =
      ({ users := [] ++
          [{ id := 1, email := aProfileSample.email, password := "",
             name := some aProfileSample.name, authProvider := "amazon",
             profilePicture := strOrNull aProfileSample.picture }],
         nextId := 1 + 1 },
       federatedAuthResult
         { id := 1, email := aProfileSample.email, password := "",
           name := some aProfileSample.name, authProvider := "amazon",
           profilePicture := strOrNull aProfileSample.picture })) :=
  c5_federated_creates_user { users := [], nextId := 1 } gProfileSample
    aProfileSample (by decide) (by decide)

/-- C10: when the update payload's `dueDate` is absent or the falsy empty
string, the stored due date is untouched; and no update payload whatsoever
can turn a non-null stored due date back into null. -/
theorem c10_update_cannot_clear_dueDate (t : Todo) (dto : UpdateTodoDto) :
    ((dto.dueDate = none ∨ dto.dueDate = some "") →
        (applyTodoUpdate t dto).dueDate = t.dueDate)
  ∧ (t.dueDate ≠ none → (applyTodoUpdate t dto).dueDate ≠ none) := by
  constructor
  · rintro (h | h) <;> simp [applyTodoUpdate, h]
  · intro hne
    cases hd : dto.dueDate with
    | none => simpa [applyTodoUpdate, hd] using hne
    | some s =>
        by_cases hs : s = ""
        · simpa [applyTodoUpdate, hd, hs] using hne
        · simp [applyTodoUpdate, hd, hs]

def dueTodoSample : Todo :=
  { id := 12, title := "due", description := none, completed := false,
    dueDate := some "2026-03-01", createdAt := 2, userId := 1 }

theorem c10_update_cannot_clear_dueDate_witness :
    (applyTodoUpdate dueTodoSample emptyUpdateDto).dueDate =
        dueTodoSample.dueDate
  ∧ (applyTodoUpdate dueTodoSample emptyUpdateDto).dueDate ≠ none :=
  ⟨(c10_update_cannot_clear_dueDate dueTodoSample emptyUpdateDto).1 (Or.inl rfl),
   (c10_update_cannot_clear_dueDate dueTodoSample emptyUpdateDto).2 (by decide)⟩

end TodoBackend
